import Mathlib

/-
Formal model of the core of the Obsidian-Customize-DiscordRPC plugin:
the privacy filter (src/utils/privacy-manager.ts), the template engine
(src/utils/template-processor.ts), the presence synthesizer
(PresenceManager.createActivity) and the connection lifecycle manager
(src/services/discord-client.ts).  Strings of the TypeScript source are
modelled as lists of characters; records are modelled as structures;
the event-driven Discord client is modelled as an explicit transition
system over an abstract state.
-/

/-- A JavaScript string, modelled as its list of characters. -/
abbrev Str := List Char

/-- The ECMAScript WhiteSpace and LineTerminator characters removed by
String.prototype.trim. -/
def jsIsWhitespace (c : Char) : Bool :=
  c = '\t' || c = '\n' || c = '\x0b' || c = '\x0c' || c = '\r' || c = ' ' ||
  c = '\u00a0' || c = '\u1680' || ('\u2000' ≤ c && c ≤ '\u200a') ||
  c = '\u2028' || c = '\u2029' || c = '\u202f' || c = '\u205f' ||
  c = '\u3000' || c = '\ufeff'

/-- JavaScript String.prototype.trim: remove leading and trailing
whitespace. -/
def jsTrim (l : Str) : Str :=
  (l.dropWhile jsIsWhitespace).rdropWhile jsIsWhitespace

theorem dropWhile_rdropWhile_eq_self {p : Char → Bool} {X : Str}
    (hX : X.dropWhile p = X) :
    (X.rdropWhile p).dropWhile p = X.rdropWhile p := by
  obtain ⟨t, ht⟩ := List.rdropWhile_prefix p X
  cases hr : X.rdropWhile p with
  | nil => simp
  | cons a l' =>
    rw [hr] at ht
    have h0 : 0 < X.length := by
      rw [← ht]; simp
    have hget := (List.dropWhile_eq_self_iff.mp hX) h0
    have hXa : X.get ⟨0, h0⟩ = a := by
      have : X = a :: (l' ++ t) := by rw [← ht]; simp
      simp [this]
    rw [hXa] at hget
    simp [List.dropWhile_cons, hget]

theorem jsTrim_idem (l : Str) : jsTrim (jsTrim l) = jsTrim l := by
  unfold jsTrim
  rw [dropWhile_rdropWhile_eq_self (List.dropWhile_idempotent _ _),
    List.rdropWhile_idempotent]

/-- The time-tracking mode setting: per-file or per-session elapsed time. -/
inductive TimeMode where
  | file
  | session
deriving DecidableEq

/-- The DiscordRPCSettings record (src/types/settings.ts). -/
structure DiscordRPCSettings where
  enabled : Bool
  showFileName : Bool
  showVaultName : Bool
  timeMode : TimeMode
  useCustomTemplate : Bool
  customDetailsTemplate : Str
  customStateTemplate : Str
  enableCustomButton : Bool
  customButtonLabel : Str
  customButtonUrl : Str
  hideVaultName : Bool
  hideNoteName : Bool
  hideSpecificPaths : Bool
  hiddenPaths : List Str

/-- DEFAULT_SETTINGS from src/utils/constants.ts. -/
def DEFAULT_SETTINGS : DiscordRPCSettings where
  enabled := false
  showFileName := true
  showVaultName := true
  timeMode := TimeMode.file
  useCustomTemplate := false
  customDetailsTemplate := "%activity_type%: %active_note_name%".data
  customStateTemplate := "Vault: %vault_name%".data
  enableCustomButton := false
  customButtonLabel := "Visit My Website".data
  customButtonUrl := "".data
  hideVaultName := false
  hideNoteName := false
  hideSpecificPaths := false
  hiddenPaths := []

/-- The per-pattern matching test inside PrivacyManager.isPathHidden:
the pattern is trimmed; a blank pattern never matches; an exact match or
a folder-pattern match (pattern ending in the char '/' that the path
starts with) hides the path; nothing else matches. -/
def patternMatches (pat0 filePath : Str) : Bool :=
  let pat := jsTrim pat0
  if pat = [] then false
  else if pat = filePath then true
  else if pat.getLast? = some '/' then pat.isPrefixOf filePath
  else false

/-- PrivacyManager.isPathHidden (src/utils/privacy-manager.ts lines 6-27). -/
def isPathHidden (s : DiscordRPCSettings) (filePath : Str) : Bool :=
  if s.hideSpecificPaths = false ∨ s.hiddenPaths = [] then false
  else s.hiddenPaths.any fun pat => patternMatches pat filePath

/-- PrivacyManager.shouldHideFile (lines 29-31).  The optional argument
mirrors the TypeScript signature; the truthiness test makes an absent or
empty path skip the pattern check. -/
def shouldHideFile (s : DiscordRPCSettings) (filePath : Option Str) : Bool :=
  s.hideNoteName ||
    (match filePath with
      | some p => if p = [] then false else isPathHidden s p
      | none => false)

/-- PrivacyManager.shouldHideVault (lines 33-35). -/
def shouldHideVault (s : DiscordRPCSettings) : Bool :=
  s.hideVaultName

/-- The matching rule exactly as the claim words it, with no trimming:
a pattern matches iff it is non-empty, not whitespace-only, and either
equals the path or ends with the char '/' and the path starts with it. -/
def claimPatternMatches (pat filePath : Str) : Bool :=
  if pat = [] then false
  else if pat.all jsIsWhitespace then false
  else if pat = filePath then true
  else if pat.getLast? = some '/' then pat.isPrefixOf filePath
  else false

/-- shouldHideFile exactly as the claim describes it. -/
def claimShouldHideFile (s : DiscordRPCSettings) (filePath : Str) : Bool :=
  s.hideNoteName ||
    (s.hideSpecificPaths && s.hiddenPaths.any fun pat => claimPatternMatches pat filePath)

/-- The matching rule with the amendment: the comparison happens on the
trimmed form of the pattern, which must be non-empty and either equal
the path or end with the char '/' with the path starting with it. -/
def amendedPatternMatches (pat filePath : Str) : Bool :=
  let q := jsTrim pat
  if q = [] then false
  else if q = filePath then true
  else if q.getLast? = some '/' then q.isPrefixOf filePath
  else false

theorem isPrefixOf_self (l : Str) : l.isPrefixOf l = true := by
  induction l with
  | nil => rfl
  | cons a t ih => simp [List.isPrefixOf, ih]

theorem patternMatches_eq_amended (pat path : Str) :
    patternMatches pat path = amendedPatternMatches pat path :=
  rfl

theorem amendedPatternMatches_nil (pat : Str) :
    amendedPatternMatches pat [] = false := by
  unfold amendedPatternMatches
  cases h : jsTrim pat with
  | nil => simp [h]
  | cons a t => simp [h, List.isPrefixOf]

theorem any_amendedPatternMatches_nil (l : List Str) :
    (l.any fun pat => amendedPatternMatches pat []) = false := by
  induction l with
  | nil => rfl
  | cons a t ih => simp [List.any_cons, ih, amendedPatternMatches_nil]

theorem patternMatches_jsTrim (pat path : Str) :
    patternMatches (jsTrim pat) path = patternMatches pat path := by
  unfold patternMatches
  rw [jsTrim_idem]

def c2Settings : DiscordRPCSettings :=
  { DEFAULT_SETTINGS with hideSpecificPaths := true, hiddenPaths := ["a ".data] }

/-- Claim C2 counterexample: with hide-by-path enabled and the single
hidden-path pattern "a " (trailing space), the code hides the path "a"
(the pattern is trimmed before every comparison), while the matching
rule as the claim words it (no trimming: the pattern itself must equal
the path or end with the char '/') does not match, so the claimed
equivalence fails at this input. -/
theorem shouldHideFile_untrimmed_pattern_cex :
    shouldHideFile c2Settings (some "a".data) = true ∧
    claimShouldHideFile c2Settings "a".data = false :=
  ⟨by decide, by decide⟩

/-- Claim C2 (amended): for every settings value and path,
shouldHideFile is true iff the hide-note-name toggle is set, OR
path-pattern hiding is enabled and some pattern in the hidden-paths list
matches the path, where a pattern matches exactly when its trimmed form
is non-empty and either equals the path, or ends with the char '/' and
the path starts with that trimmed form; no other matching occurs (an
absent path consults no pattern, and no pattern can match the empty
path). -/
theorem shouldHideFile_characterization (s : DiscordRPCSettings) (path : Str) :
    (shouldHideFile s (some path) =
      (s.hideNoteName ||
        (s.hideSpecificPaths &&
          s.hiddenPaths.any fun pat => amendedPatternMatches pat path))) ∧
    shouldHideFile s none = s.hideNoteName := by
  constructor
  · simp only [shouldHideFile]
    by_cases hp : path = []
    · subst hp
      simp [any_amendedPatternMatches_nil]
    · rw [if_neg hp]
      simp only [isPathHidden]
      by_cases h1 : s.hideSpecificPaths = false
      · simp [h1]
      · have h1t : s.hideSpecificPaths = true := by
          revert h1
          cases s.hideSpecificPaths <;> simp
        by_cases h2 : s.hiddenPaths = []
        · simp [h1t, h2]
        · rw [if_neg (by simp [h1, h2]), h1t]
          simp only [Bool.true_and, patternMatches_eq_amended]
  · simp [shouldHideFile]

def c8Settings : DiscordRPCSettings :=
  { DEFAULT_SETTINGS with hideSpecificPaths := true, hiddenPaths := ["Private/".data] }

/-- Claim C8: with hide-by-path enabled, the hide-note-name toggle off
and the hidden-paths list consisting of a folder pattern that ends with
the char '/' (already trimmed), shouldHideFile is true exactly for the
paths that start with that pattern: every path under the prefix is
hidden and every path outside it is not. -/
theorem folder_pattern_hides_subtree (s : DiscordRPCSettings) (pat : Str)
    (h1 : s.hideNoteName = false) (h2 : s.hideSpecificPaths = true)
    (h3 : s.hiddenPaths = [pat]) (h4 : jsTrim pat = pat)
    (h5 : pat.getLast? = some '/') (path : Str) :
    shouldHideFile s (some path) = pat.isPrefixOf path := by
  have hne : pat ≠ [] := by
    intro h
    rw [h] at h5
    simp at h5
  unfold shouldHideFile isPathHidden
  rw [h1, h3]
  simp only [Bool.false_or]
  by_cases hp : path = []
  · subst hp
    rw [if_pos rfl]
    cases pat with
    | nil => exact absurd rfl hne
    | cons a l => simp [List.isPrefixOf]
  · rw [if_neg hp, if_neg (by simp [h2])]
    simp only [List.any_cons, List.any_nil, Bool.or_false]
    unfold patternMatches
    simp only [h4]
    rw [if_neg hne]
    by_cases he : pat = path
    · rw [if_pos he, he]
      exact (isPrefixOf_self path).symm
    · rw [if_neg he, if_pos h5]

/-- Claim C8 witness: pattern "Private/", a path inside the folder and a
sibling path outside it. -/
theorem folder_pattern_hides_subtree_witness :
    jsTrim "Private/".data = "Private/".data ∧
    ("Private/".data : Str).getLast? = some '/' ∧
    shouldHideFile c8Settings (some "Private/Diary.md".data) = true ∧
    shouldHideFile c8Settings (some "Public/Notes.md".data) = false := by
  refine ⟨by decide, by decide, ?_, ?_⟩
  · exact (folder_pattern_hides_subtree c8Settings "Private/".data rfl rfl rfl
      (by decide) (by decide) "Private/Diary.md".data).trans (by decide)
  · exact (folder_pattern_hides_subtree c8Settings "Private/".data rfl rfl rfl
      (by decide) (by decide) "Public/Notes.md".data).trans (by decide)

/-- Claim C9: for every settings value, shouldHideFile on an absent or
empty path returns exactly the hide-note-name toggle; the hidden-path
patterns are never consulted, so no pattern can hide such a path. -/
theorem shouldHideFile_absent_or_empty_path (s : DiscordRPCSettings) :
    shouldHideFile s none = s.hideNoteName ∧
    shouldHideFile s (some []) = s.hideNoteName := by
  constructor <;> simp [shouldHideFile]

theorem isPathHidden_trim (s : DiscordRPCSettings) (path : Str) :
    isPathHidden { s with hiddenPaths := s.hiddenPaths.map jsTrim } path =
      isPathHidden s path := by
  unfold isPathHidden
  by_cases h1 : s.hideSpecificPaths = false
  · simp [h1]
  · by_cases h2 : s.hiddenPaths = []
    · simp [h2]
    · have h2m : s.hiddenPaths.map jsTrim ≠ [] := by
        simpa using h2
      rw [if_neg (by simp [h1, h2m]), if_neg (by simp [h1, h2])]
      rw [List.any_map]
      congr 1
      funext pat
      simp only [Function.comp]
      exact patternMatches_jsTrim pat path

/-- Claim C10: shouldHideFile is invariant under trimming the patterns
of the hidden-paths list, because each pattern is trimmed before any
comparison. -/
theorem shouldHideFile_trim_invariant (s : DiscordRPCSettings) (fp : Option Str) :
    shouldHideFile { s with hiddenPaths := s.hiddenPaths.map jsTrim } fp =
      shouldHideFile s fp := by
  cases fp with
  | none => rfl
  | some path =>
    unfold shouldHideFile
    by_cases hp : path = []
    · simp [hp]
    · simp only [if_neg hp]
      rw [isPathHidden_trim]

/-- One global literal-pattern replacement pass, as performed by the
JavaScript String.replace with an escaped pattern and the g flag: scan
left to right, replace each non-overlapping occurrence of the pattern by
the value.  The Nat argument is structural fuel; one unit is spent per
examined position, so a fuel of at least the length of the scanned list
is always enough (the fixed placeholder patterns are never empty). -/
def replaceFuel (p v : Str) : Nat → Str → Str
  | _, [] => []
  | 0, l => l
  | n + 1, c :: cs =>
    if p ≠ [] ∧ p.isPrefixOf (c :: cs) = true then
      v ++ replaceFuel p v n (cs.drop (p.length - 1))
    else
      c :: replaceFuel p v n cs

/-- Replace every occurrence of the pattern p by the value v in l. -/
def replaceAll (p v l : Str) : Str :=
  replaceFuel p v l.length l

/-- Whether the pattern p occurs as a contiguous segment of l. -/
def hasOccur (p : Str) : Str → Bool
  | [] => p.isEmpty
  | c :: cs => p.isPrefixOf (c :: cs) || hasOccur p cs

theorem replaceFuel_no_occur (p v : Str) :
    ∀ (n : Nat) (l : Str), hasOccur p l = false → replaceFuel p v n l = l := by
  intro n
  induction n with
  | zero =>
    intro l _
    cases l <;> rfl
  | succ n ih =>
    intro l h
    cases l with
    | nil => rfl
    | cons c cs =>
      simp only [hasOccur, Bool.or_eq_false_iff] at h
      have hnp : ¬(p ≠ [] ∧ p.isPrefixOf (c :: cs) = true) := by
        intro hc
        rw [h.1] at hc
        exact absurd hc.2 (by simp)
      unfold replaceFuel
      rw [if_neg hnp, ih cs h.2]

theorem replaceAll_no_occur (p v l : Str) (h : hasOccur p l = false) :
    replaceAll p v l = l :=
  replaceFuel_no_occur p v l.length l h

/-- An open note, as far as the presence core reads it: its vault path,
its basename, its extension and the name of its parent folder (absent
when the note has no parent; the root folder of a vault has the empty
name). -/
structure TFile where
  path : Str
  basename : Str
  extension : Str
  parent : Option Str

/-- TemplateContext (src/utils/template-processor.ts): the current file,
the vault (read only through its name) and the reading-mode flag. -/
structure TemplateContext where
  currentFile : Option TFile
  vaultName : Str
  isReading : Bool

/-- The placeholders object of TemplateProcessor.processTemplate, in its
insertion order, with the fallback values of the source. -/
def placeholderValues (ctx : TemplateContext) : List (Str × Str) :=
  [("%active_note_name%".data,
     match ctx.currentFile with
     | some f => f.basename
     | none => "Unknown".data),
   ("%active_note_path%".data,
     match ctx.currentFile with
     | some f => f.path
     | none => []),
   ("%vault_name%".data, ctx.vaultName),
   ("%folder_name%".data,
     match ctx.currentFile with
     | some f =>
       match f.parent with
       | some n => if n = [] then "Root".data else n
       | none => "Root".data
     | none => "Unknown".data),
   ("%file_extension%".data,
     match ctx.currentFile with
     | some f => f.extension
     | none => []),
   ("%workspace_name%".data, ctx.vaultName),
   ("%activity_type%".data,
     if ctx.isReading then "Reading".data else "Editing".data)]

/-- The fixed placeholder vocabulary. -/
def placeholderNames : List Str :=
  ["%active_note_name%".data, "%active_note_path%".data, "%vault_name%".data,
   "%folder_name%".data, "%file_extension%".data, "%workspace_name%".data,
   "%activity_type%".data]

/-- TemplateProcessor.processTemplate (lines 10-30): an empty template
short-circuits to the empty string; otherwise the placeholders are
substituted one after the other, each pass replacing every occurrence of
its placeholder in the current intermediate result. -/
def processTemplate (template : Str) (ctx : TemplateContext) : Str :=
  if template = [] then []
  else (placeholderValues ctx).foldl (fun r pv => replaceAll pv.1 pv.2 r) template

/-- Whether a template contains an occurrence of any placeholder of the
fixed vocabulary. -/
def mentionsPlaceholder (t : Str) : Bool :=
  placeholderNames.any fun p => hasOccur p t

def c5Ctx : TemplateContext :=
  ⟨none, "%activity_type%".data, false⟩

/-- Claim C5 counterexample: with a vault named "%activity_type%" and
template "%vault_name%", the third substitution pass inserts the vault
name and the seventh pass then expands the inserted placeholder token,
yielding "Editing" instead of the literal "%activity_type%" the claim
requires, so substituted values are not exempt from later expansion. -/
theorem processTemplate_sequential_expansion_cex :
    processTemplate "%vault_name%".data c5Ctx = "Editing".data ∧
    processTemplate "%vault_name%".data c5Ctx ≠ "%activity_type%".data :=
  ⟨by decide, by decide⟩

theorem foldl_replaceAll_no_occur (pvs : List (Str × Str)) (t : Str)
    (h : ∀ pv ∈ pvs, hasOccur pv.1 t = false) :
    pvs.foldl (fun r pv => replaceAll pv.1 pv.2 r) t = t := by
  induction pvs with
  | nil => rfl
  | cons pv rest ih =>
    simp only [List.foldl_cons]
    rw [replaceAll_no_occur _ _ _ (h pv (by simp))]
    exact ih fun q hq => h q (by simp [hq])

theorem placeholderValues_names (ctx : TemplateContext) :
    ∀ pv ∈ placeholderValues ctx, pv.1 ∈ placeholderNames := by
  intro pv h
  simp only [placeholderValues, List.mem_cons, List.not_mem_nil, or_false] at h
  rcases h with h | h | h | h | h | h | h <;> subst h <;> simp [placeholderNames]

/-- Claim C5 (amended): substitution is sequential over the fixed
placeholder vocabulary in a fixed order with no escaping syntax, so a
placeholder token occurring inside a substituted value is expanded
whenever its own substitution pass comes later in the order; a template
containing no occurrence of any placeholder of the vocabulary — in
particular one whose %...% tokens are all outside the vocabulary — is
returned unchanged. -/
theorem processTemplate_no_placeholder_id (t : Str) (ctx : TemplateContext)
    (h : mentionsPlaceholder t = false) :
    processTemplate t ctx = t := by
  have hall : ∀ p ∈ placeholderNames, hasOccur p t = false := by
    simpa [mentionsPlaceholder, List.any_eq_false] using h
  unfold processTemplate
  by_cases ht : t = []
  · simp [ht]
  · rw [if_neg ht]
    exact foldl_replaceAll_no_occur _ t
      fun pv hpv => hall pv.1 (placeholderValues_names ctx pv hpv)

def c5WitnessCtx : TemplateContext :=
  ⟨none, "Vault".data, false⟩

/-- Claim C5 witness: a template whose only %...% token is outside the
vocabulary is left untouched. -/
theorem processTemplate_no_placeholder_id_witness :
    mentionsPlaceholder "Working on %secret_project% notes".data = false ∧
    processTemplate "Working on %secret_project% notes".data c5WitnessCtx =
      "Working on %secret_project% notes".data :=
  ⟨by decide, processTemplate_no_placeholder_id _ c5WitnessCtx (by decide)⟩

/-- The DiscordActivity wire payload (src/types/discord.ts).  Optional
fields model fields that may be absent from the object entirely; the
instance flag is named instanceFlag because its source name is a
reserved word here. -/
structure DiscordActivity where
  largeImageKey : Str
  largeImageText : Str
  smallImageKey : Str
  smallImageText : Str
  instanceFlag : Bool
  details : Option Str
  state : Option Str
  startTimestamp : Option Nat
  buttons : Option (List (Str × Str))

/-- PresenceManager.createActivity (lines 53-116).  The reading-mode
flag is the injected result of isInReadingMode (which never throws and
falls back to false); vaultName is vault.getName(); startTime and
sessionStartTime are the two stored epoch-millisecond timestamps. -/
def createActivity (s : DiscordRPCSettings) (vaultName : Str) (isReading : Bool)
    (startTime sessionStartTime : Nat) (currentFile : Option TFile) :
    DiscordActivity :=
  let hideF : Bool :=
    match currentFile with
    | some f => shouldHideFile s (some f.path)
    | none => false
  let ctx : TemplateContext := ⟨currentFile, vaultName, isReading⟩
  let activityType : Str := if isReading then "Reading".data else "Editing".data
  { largeImageKey := "obsidian".data
    largeImageText := "Obsidian - A knowledge base".data
    smallImageKey := "obsidian_small".data
    smallImageText := "Taking notes".data
    instanceFlag := false
    details :=
      if hideF = true then none
      else if s.useCustomTemplate = true ∧ jsTrim s.customDetailsTemplate ≠ [] then
        some (processTemplate s.customDetailsTemplate ctx)
      else if s.useCustomTemplate = false ∧ s.showFileName = true then
        some (match currentFile with
          | some f => activityType ++ ": ".data ++ f.basename
          | none => activityType ++ " a note".data)
      else none
    state :=
      if s.showVaultName = true ∧ shouldHideVault s = false then
        if s.useCustomTemplate = true ∧ jsTrim s.customStateTemplate ≠ [] then
          some (processTemplate s.customStateTemplate ctx)
        else if s.useCustomTemplate = false then
          some ("Vault: ".data ++ vaultName)
        else none
      else none
    startTimestamp :=
      some ((match s.timeMode with
        | TimeMode.session => sessionStartTime
        | TimeMode.file => startTime) / 1000)
    buttons :=
      if s.enableCustomButton = true ∧ s.customButtonUrl ≠ [] then
        some [(if s.customButtonLabel = [] then "Visit My Website".data
                else s.customButtonLabel,
               s.customButtonUrl)]
      else none }

/-- Claim C1: whenever a file is open and the privacy filter decides it
must be hidden, the synthesized payload has no details field at all; and
the payload has no state field whenever shouldHideVault() is true or the
show-vault-name display toggle is off. -/
theorem details_state_omitted_when_hidden (s : DiscordRPCSettings) (v : Str)
    (r : Bool) (t1 t2 : Nat) (f : TFile) (cf : Option TFile) :
    (shouldHideFile s (some f.path) = true →
      (createActivity s v r t1 t2 (some f)).details = none) ∧
    (shouldHideVault s = true ∨ s.showVaultName = false →
      (createActivity s v r t1 t2 cf).state = none) := by
  constructor
  · intro h
    simp [createActivity, h]
  · intro h
    rcases h with h | h <;> simp [createActivity, h]

def c1Settings : DiscordRPCSettings :=
  { DEFAULT_SETTINGS with hideSpecificPaths := true,
                          hiddenPaths := ["Private/".data] }

def c1File : TFile :=
  ⟨"Private/Diary.md".data, "Diary".data, "md".data, some "Private".data⟩

def c1VaultSettings : DiscordRPCSettings :=
  { DEFAULT_SETTINGS with hideVaultName := true }

/-- Claim C1 witness: the spec scenario — file "Private/Diary.md",
hidden-path pattern "Private/", hide-by-path enabled — omits details;
and hiding the vault name omits state. -/
theorem details_state_omitted_when_hidden_witness :
    shouldHideFile c1Settings (some c1File.path) = true ∧
    (createActivity c1Settings "MyVault".data false 5000 6000 (some c1File)).details = none ∧
    shouldHideVault c1VaultSettings = true ∧
    (createActivity c1VaultSettings "MyVault".data false 5000 6000 (some c1File)).state = none := by
  refine ⟨by decide, ?_, by decide, ?_⟩
  · exact (details_state_omitted_when_hidden c1Settings "MyVault".data false 5000
      6000 c1File (some c1File)).1 (by decide)
  · exact (details_state_omitted_when_hidden c1VaultSettings "MyVault".data false
      5000 6000 c1File (some c1File)).2 (Or.inl (by decide))

def c4Settings : DiscordRPCSettings :=
  { DEFAULT_SETTINGS with showFileName := false, showVaultName := false,
                          useCustomTemplate := true,
                          customDetailsTemplate := "x".data }

/-- Claim C4 counterexample: with both display toggles off but
custom-template mode on and a non-blank details template, the details
branch is not gated on the show-file-name toggle, so the payload still
carries a details field. -/
theorem details_present_despite_toggles_cex :
    c4Settings.showFileName = false ∧ c4Settings.showVaultName = false ∧
    (createActivity c4Settings "V".data false 0 0 none).details = some "x".data :=
  ⟨rfl, rfl, by decide⟩

/-- Claim C4 (amended): for every settings value in which both display
toggles are off and custom-template mode is off, the synthesized payload
contains neither a details field nor a state field. -/
theorem no_details_state_when_toggles_off (s : DiscordRPCSettings) (v : Str)
    (r : Bool) (t1 t2 : Nat) (cf : Option TFile)
    (h1 : s.showFileName = false) (h2 : s.showVaultName = false)
    (h3 : s.useCustomTemplate = false) :
    (createActivity s v r t1 t2 cf).details = none ∧
    (createActivity s v r t1 t2 cf).state = none := by
  constructor
  · simp [createActivity, h1, h3]
  · simp [createActivity, h2]

def c4AmSettings : DiscordRPCSettings :=
  { DEFAULT_SETTINGS with showFileName := false, showVaultName := false }

/-- Claim C4 witness: default settings with both display toggles off. -/
theorem no_details_state_when_toggles_off_witness :
    c4AmSettings.showFileName = false ∧ c4AmSettings.showVaultName = false ∧
    c4AmSettings.useCustomTemplate = false ∧
    ((createActivity c4AmSettings "V".data false 0 0 none).details = none ∧
     (createActivity c4AmSettings "V".data false 0 0 none).state = none) :=
  ⟨rfl, rfl, rfl,
    no_details_state_when_toggles_off c4AmSettings "V".data false 0 0 none
      rfl rfl rfl⟩

/-- Claim C6: every synthesized payload carries a startTimestamp equal
to floor(T/1000) with T the per-file start time in file mode and the
session start time in session mode, regardless of every other setting;
and changing only timeMode changes only which source timestamp is used,
every other field of the payload being unchanged. -/
theorem startTimestamp_source_selection (s : DiscordRPCSettings) (v : Str)
    (r : Bool) (t1 t2 : Nat) (cf : Option TFile) (m : TimeMode) :
    (createActivity s v r t1 t2 cf).startTimestamp =
      some ((match s.timeMode with
        | TimeMode.file => t1
        | TimeMode.session => t2) / 1000) ∧
    createActivity { s with timeMode := m } v r t1 t2 cf =
      { createActivity s v r t1 t2 cf with
        startTimestamp :=
          some ((match m with
            | TimeMode.file => t1
            | TimeMode.session => t2) / 1000) } := by
  constructor
  · cases hm : s.timeMode <;> simp [createActivity, hm]
  · cases s
    cases m <;> rfl

/-- Abstract state of the DiscordClient (src/services/discord-client.ts).
Beyond the three fields of the class (connected, rpc, updateInterval),
the model tracks the transport sessions that were created and may still
fire their ready handler, the sessions whose handlers are registered at
all, and — as observation — the identities of every interval timer that
was created and not yet cleared.  Session and timer identities are drawn
from the two counters. -/
structure ClientState where
  connected : Bool
  rpc : Option Nat
  updateInterval : Option Nat
  pendingReady : List Nat
  sessions : List Nat
  liveTimers : List Nat
  nextSession : Nat
  nextTimer : Nat
deriving DecidableEq

def initialClientState : ClientState :=
  ⟨false, none, none, [], [], [], 0, 0⟩

/-- The events the client code reacts to: a connect() call creating a
transport and starting its handshake, a rejected login, the asynchronous
ready and disconnected transport signals, and a disconnect() call whose
clearActivity and destroy outcomes are the two booleans. -/
inductive ClientEvent where
  | connectCall
  | loginFailure
  | readyEvt (sid : Nat)
  | disconnectedEvt (sid : Nat)
  | disconnectCall (clearOk destroyOk : Bool)

/-- One step of the client, translated handler by handler from
discord-client.ts.  connect() returns early when already connected,
otherwise creates a fresh transport and registers its handlers.  The
ready handler sets connected, then assigns a fresh interval timer to
updateInterval without clearing a previously stored one.  The
disconnected handler clears the stored timer and resets connected.
disconnect() returns early unless connected with a transport; otherwise
it clears the timer, then awaits clearActivity and destroy — only when
both succeed does it reach the assignments resetting rpc and connected,
a failure jumping to the catch which merely logs. -/
def clientStep (st : ClientState) : ClientEvent → ClientState
  | ClientEvent.connectCall =>
    if st.connected = true then st
    else
      { st with
        rpc := some st.nextSession
        pendingReady := st.nextSession :: st.pendingReady
        sessions := st.nextSession :: st.sessions
        nextSession := st.nextSession + 1 }
  | ClientEvent.loginFailure =>
    { st with connected := false }
  | ClientEvent.readyEvt sid =>
    if sid ∈ st.pendingReady then
      { st with
        connected := true
        updateInterval := some st.nextTimer
        liveTimers := st.nextTimer :: st.liveTimers
        pendingReady := st.pendingReady.erase sid
        nextTimer := st.nextTimer + 1 }
    else st
  | ClientEvent.disconnectedEvt sid =>
    if sid ∈ st.sessions then
      { st with
        connected := false
        updateInterval := none
        liveTimers :=
          match st.updateInterval with
          | some t => st.liveTimers.erase t
          | none => st.liveTimers }
    else st
  | ClientEvent.disconnectCall clearOk destroyOk =>
    if st.connected = false ∨ st.rpc = none then st
    else
      let st1 :=
        { st with
          updateInterval := none
          liveTimers :=
            match st.updateInterval with
            | some t => st.liveTimers.erase t
            | none => st.liveTimers }
      if clearOk = true ∧ destroyOk = true then
        { st1 with rpc := none, connected := false }
      else st1

/-- Run the client from its initial state through a list of events. -/
def runClient (evts : List ClientEvent) : ClientState :=
  evts.foldl clientStep initialClientState

/-- Claim C3 (code bug): disconnect() from a connected state cancels the
timer and swallows teardown errors, but when clearActivity fails the
catch skips the assignment resetting connected, so the client still
reports connected instead of ending Disconnected as the claim states;
with successful teardown the state does reach Disconnected, and the call
is a no-op when not connected. -/
theorem disconnect_teardown_failure_leaves_connected :
    (runClient [ClientEvent.connectCall, ClientEvent.readyEvt 0,
        ClientEvent.disconnectCall false true]).connected = true ∧
    (runClient [ClientEvent.connectCall, ClientEvent.readyEvt 0,
        ClientEvent.disconnectCall false true]).updateInterval = none ∧
    (runClient [ClientEvent.connectCall, ClientEvent.readyEvt 0,
        ClientEvent.disconnectCall true true]).connected = false ∧
    runClient [ClientEvent.disconnectCall true true] = initialClientState :=
  ⟨by decide, by decide, by decide, by decide⟩

/-- Claim C7 (code bug): two connect() calls while the first handshake
is still in flight create two transports, both ready handlers run, and
each installs a fresh periodic timer without cancelling the previous
one: after the trace two timers are live and only the second handle is
still stored, so the at-most-one-active-timer property fails in a
reachable state. -/
theorem duplicate_timer_reachable :
    (runClient [ClientEvent.connectCall, ClientEvent.connectCall,
        ClientEvent.readyEvt 0, ClientEvent.readyEvt 1]).liveTimers.length = 2 ∧
    (runClient [ClientEvent.connectCall, ClientEvent.connectCall,
        ClientEvent.readyEvt 0, ClientEvent.readyEvt 1]).updateInterval = some 1 :=
  ⟨by decide, by decide⟩
